import Mathlib

/-!
Verification of the `c-requests` HTTP client helper (src/http.c) against its
natural-language specification.

The repository bundles three near-verbatim variants of the same libcurl
wrapper.  The first variant (the one defining `http_init`, `http_cleanup`
and `http_parse_url`) is embedded here in full; the second variant's
`http_post` (heap-allocated URL via `asprintf`, no custom headers) is
embedded separately as `http_post_v2` where a claim cites it.

Modelling conventions:
- C strings are `List Char` (URL text) or `List Nat` (byte payloads); the
  list holds the bytes before the terminating NUL, so `strlen` is `length`.
- The transport (libcurl) is an oracle record `CurlEnv`: whether
  `curl_easy_init` succeeds, the `CURLcode` that `curl_easy_perform`
  returns, the response chunks it delivers to the write callback, and the
  content of the uninitialised byte produced by `malloc(1)`.
- Out-parameters are `Option` fields of a result record: `none` means the
  C function returned without writing through the pointer.
- Fallible allocation (`realloc`, `strdup`, `asprintf`) takes an explicit
  success oracle; on failure the C behaviour (NULL result) is modelled
  faithfully.
-/

/-- `PATH_MAX` on the target platform: the size of the fixed `char url[PATH_MAX]`
buffer in the first and third variants. -/
def PATH_MAX : Nat := 4096

/-- `while (*path && *path == '/') path += 1;` — drop the maximal run of
leading slashes from `path` (src/http.c:153, 225). -/
def stripLeadingSlashes (path : List Char) : List Char :=
  path.dropWhile (fun c => c == '/')

/-- The format `"%s:%u/%s"` applied to host, port and an already-stripped
path (the argument of `snprintf` at src/http.c:155, 227). -/
def urlFormat (host : List Char) (port : Nat) (path : List Char) : List Char :=
  host ++ ':' :: Nat.toDigits 10 port ++ '/' :: path

/-- The URL text actually stored in `char url[PATH_MAX]` by
`snprintf(url, PATH_MAX, "%s:%u/%s", host, port, path)`: snprintf writes at
most `PATH_MAX - 1` characters plus the terminator, truncating the rest. -/
def builtUrl (host : List Char) (port : Nat) (path : List Char) : List Char :=
  (urlFormat host port (stripLeadingSlashes path)).take (PATH_MAX - 1)

/-- Stated from the spec's words for claim C1: strip the maximal run of
leading slash characters from the path, exactly once, keeping internal
slashes. -/
def spec_strip : List Char → List Char
  | '/' :: rest => spec_strip rest
  | l => l

/-- Stated from the spec's words for claim C1: the URL is the concatenation
`host + ":" + decimal(port) + "/" + strippedPath`. -/
def spec_built_url (host : List Char) (port : Nat) (path : List Char) : List Char :=
  host ++ ":".data ++ Nat.toDigits 10 port ++ "/".data ++ spec_strip path

/-- `struct write_callback_data` (src/http.c:35): `data` is the current heap
allocation behind the growable response buffer, `size` the number of
accumulated payload bytes. -/
structure WriteCallbackData where
  data : List Nat
  size : Nat
deriving DecidableEq, Repr

/-- `write_callback` (src/http.c:85-105).  `contents` is the chunk of
`size * nmemb` bytes offered by the transport; `alloc_ok` is the oracle for
`realloc(data->data, data->size + real_size + 1)`.  On success the chunk is
copied at offset `size` and a NUL terminator is written at the new end; on
allocation failure the callback returns 0 and leaves the struct untouched. -/
def write_callback (contents : List Nat) (alloc_ok : Bool) (st : WriteCallbackData) :
    Nat × WriteCallbackData :=
  if alloc_ok = true then
    ⟨contents.length, ⟨st.data.take st.size ++ contents ++ [0], st.size + contents.length⟩⟩
  else
    ⟨0, st⟩

/-- `struct read_callback_data` (src/http.c:25): the bytes still to be sent
and their count (the C code keeps a moving pointer plus a countdown). -/
structure ReadCallbackData where
  data : List Nat
  size : Nat
deriving DecidableEq, Repr

/-- `read_callback` (src/http.c:51-73).  `buffer_size` is `size * nmemb`.
If bytes remain, copies `min(remaining, buffer_size)` of them into the
transport's buffer and advances the cursor; once exhausted it returns 0.
Result: (return value, bytes emitted, updated struct). -/
def read_callback (buffer_size : Nat) (st : ReadCallbackData) :
    Nat × List Nat × ReadCallbackData :=
  if st.size ≠ 0 then
    let copy_this_much := if st.size > buffer_size then buffer_size else st.size
    ⟨copy_this_much, st.data.take copy_this_much,
      ⟨st.data.drop copy_this_much, st.size - copy_this_much⟩⟩
  else
    ⟨0, [], st⟩

/-- Drive `read_callback` once per offered buffer size, concatenating the
emitted bytes (how libcurl drains the request body). -/
def runReads : List Nat → ReadCallbackData → List Nat × ReadCallbackData
  | [], st => ⟨[], st⟩
  | b :: bs, st =>
    let r := read_callback b st
    let rest := runReads bs r.2.2
    ⟨r.2.1 ++ rest.1, rest.2⟩

/-- Feed the transport's response chunks through `write_callback` (all
reallocations succeeding), starting from a given buffer state. -/
def writeRun (chunks : List (List Nat)) (st : WriteCallbackData) : WriteCallbackData :=
  chunks.foldl (fun s c => (write_callback c true s).2) st

/-- Oracle for one `http_post`/`http_get` call of the first variant:
whether `curl_easy_init` returns a handle, the `CURLcode` of
`curl_easy_perform` (0 = `CURLE_OK`), the response chunks delivered to the
write callback during `perform`, and the value of the single uninitialised
byte returned by `malloc(1)`. -/
structure CurlEnv where
  easy_init_ok : Bool
  perform_result : Nat
  chunks : List (List Nat)
  junk : Nat
deriving Repr

/-- The libcurl options a call configures on its easy handle (its
observable request, recorded rather than performed). -/
structure ReqConfig where
  url : List Char
  post : Bool
  declaredSize : Option Nat
  headers : List String
deriving DecidableEq, Repr

/-- Result of one first-variant call: the `int` return value, the value
written through `char **response` (`none` = never written), the handle
configuration (`none` = no handle was configured), and the
`read_callback_data` registered as `CURLOPT_READDATA`. -/
structure HttpCallResult where
  ret : Int
  response : Option (List Nat)
  config : Option ReqConfig
  readData : Option ReadCallbackData
deriving DecidableEq, Repr

/-- The three strings appended to the `curl_slist` at src/http.c:184-186. -/
def postHeaders : List String :=
  ["Accept: application/json", "Content-Type: application/json", "charsets: utf-8"]

/-- `http_post` of the first variant (src/http.c:148-205): strips leading
slashes, formats the URL into a `PATH_MAX` buffer with `snprintf` (the
`== -1` check mirrors the C test; snprintf returns the untruncated length,
so truncation passes the check), declares `strlen(json)` as
`CURLOPT_POSTFIELDSIZE`, registers the callbacks and the three headers,
performs, and stores the accumulated buffer through `*response`.  If
`curl_easy_init` fails it returns -1 without touching `*response`. -/
def http_post (host : List Char) (port : Nat) (path : List Char) (json : List Nat)
    (env : CurlEnv) : HttpCallResult :=
  let full := urlFormat host port (stripLeadingSlashes path)
  if (full.length : Int) = -1 then
    ⟨-1, none, none, none⟩
  else
    if env.easy_init_ok = true then
      ⟨(env.perform_result : Int),
       some (writeRun env.chunks ⟨[env.junk], 0⟩).data,
       some ⟨full.take (PATH_MAX - 1), true, some json.length, postHeaders⟩,
       some ⟨json, json.length⟩⟩
    else
      ⟨-1, none, none, none⟩

/-- `http_get` of the first variant (src/http.c:220-260): like `http_post`
but with no body, no `POSTFIELDSIZE`, and no custom headers. -/
def http_get (host : List Char) (port : Nat) (path : List Char)
    (env : CurlEnv) : HttpCallResult :=
  let full := urlFormat host port (stripLeadingSlashes path)
  if (full.length : Int) = -1 then
    ⟨-1, none, none, none⟩
  else
    if env.easy_init_ok = true then
      ⟨(env.perform_result : Int),
       some (writeRun env.chunks ⟨[env.junk], 0⟩).data,
       some ⟨full.take (PATH_MAX - 1), false, none, []⟩,
       none⟩
    else
      ⟨-1, none, none, none⟩

/-- A concrete over-long path: the formatted URL needs 4205 bytes, more
than `PATH_MAX`. -/
def longPath : List Char := List.replicate 4200 'a'

/-- The process-wide state behind `_curl_global_init_spawned` and
`_curl_global_cleanup_spawned` (src/http.c:107-108), together with the
observable effect on the transport: how many times `curl_global_init` and
`curl_global_cleanup` have actually been invoked, and whether the
transport's global state is currently initialised. -/
structure GlobalState where
  init_spawned : Bool
  cleanup_spawned : Bool
  init_calls : Nat
  cleanup_calls : Nat
  curl_active : Bool
deriving DecidableEq, Repr

/-- Process start: both guard flags clear, no global calls made. -/
def initialGlobalState : GlobalState := ⟨false, false, 0, 0, false⟩

/-- `http_init` (src/http.c:114-120): call `curl_global_init` only when the
init guard flag is still clear, then set the flag. -/
def http_init (s : GlobalState) : GlobalState :=
  if s.init_spawned = false then
    ⟨true, s.cleanup_spawned, s.init_calls + 1, s.cleanup_calls, true⟩
  else
    s

/-- `http_cleanup` (src/http.c:126-132): call `curl_global_cleanup` only
when the cleanup guard flag is still clear, then set the flag. -/
def http_cleanup (s : GlobalState) : GlobalState :=
  if s.cleanup_spawned = false then
    ⟨s.init_spawned, true, s.init_calls, s.cleanup_calls + 1, false⟩
  else
    s

/-- A call to one of the two lifecycle entry points. -/
inductive HttpOp where
  | init
  | cleanup
deriving DecidableEq, Repr

/-- Execute a sequence of `http_init` / `http_cleanup` calls. -/
def runOps : List HttpOp → GlobalState → GlobalState
  | [], s => s
  | HttpOp.init :: rest, s => runOps rest (http_init s)
  | HttpOp.cleanup :: rest, s => runOps rest (http_cleanup s)

/-- Decimal value of a digit string (the model of
`strtoul(_port, 0L, 10)` on the all-digit port text, src/http.c:315). -/
def digitsToNat (l : List Char) : Nat :=
  l.foldl (fun n c => n * 10 + (c.toNat - 48)) 0

/-- Split off a leading `scheme://`: the scheme candidate is the run of
characters before the first `:`, `/` or `?`; it counts as a scheme only
when followed by the literal `://`. -/
def schemeSplit (l : List Char) : Option (List Char × List Char) :=
  let s := l.takeWhile (fun c => c != ':' && c != '/' && c != '?')
  match l.drop s.length with
  | ':' :: '/' :: '/' :: rest => some (s, rest)
  | _ => none

/-- The parts curl's URL API hands back for one parsed URL: scheme, host,
optional port text, path, optional query. -/
structure CurlUrl where
  scheme : List Char
  host : List Char
  portStr : Option (List Char)
  path : List Char
  query : Option (List Char)
deriving DecidableEq, Repr

/-- The schemes the transport supports (the spec names `http://` and
`https://`); any other explicit scheme is a parse failure. -/
def supportedSchemes : List (List Char) := ["http".data, "https".data]

/-- Modelled from the spec: the transport's URL API
(`curl_url_set(..., CURLUPART_URL, url, CURLU_GUESS_SCHEME)` followed by
`curl_url_get` for HOST/PORT/PATH/QUERY) is libcurl code, not part of this
repository's sources.  Following the spec's parser contract: the scheme is
inferred (`http`) when the input has no `://`; an unsupported explicit
scheme or an empty host is a parse failure; the authority may carry a
decimal port (at most 65535); a missing path canonicalises to `/`; the
query is what follows `?`, absent when there is none. -/
def curl_url_parse (url : List Char) : Option CurlUrl :=
  let sr := match schemeSplit url with
    | some (s, r) => (s, r)
    | none => ("http".data, url)
  if supportedSchemes.contains sr.1 = false then none
  else
    let auth := sr.2.takeWhile (fun c => c != '/' && c != '?')
    let tail := sr.2.drop auth.length
    let host := auth.takeWhile (fun c => c != ':')
    if host = [] then none
    else
      let portRes : Option (Option (List Char)) :=
        match auth.drop host.length with
        | [] => some none
        | ':' :: p =>
          if p ≠ [] ∧ p.all Char.isDigit ∧ digitsToNat p ≤ 65535 then some (some p) else none
        | _ => none
      match portRes with
      | none => none
      | some portStr =>
        let pathPart := tail.takeWhile (fun c => c != '?')
        let path := if pathPart = [] then ['/'] else pathPart
        let query := match tail.drop pathPart.length with
          | '?' :: q => some q
          | _ => none
        some ⟨sr.1, host, portStr, path, query⟩

/-- Allocation oracles for one `http_parse_url` call: whether `curl_url()`
gets its handle, and whether each of the `strdup` duplications at
src/http.c:343-346 succeeds (the query slot covers both `strdup(_query)`
and `strdup("")`). -/
structure ParseEnv where
  curl_url_alloc_ok : Bool
  strdup_host_ok : Bool
  strdup_path_ok : Bool
  strdup_query_ok : Bool
deriving Repr

/-- `strdup` with an allocation oracle: `none` models the NULL it returns
when out of memory. -/
def strdupM (ok : Bool) (s : List Char) : Option (List Char) :=
  if ok = true then some s else none

/-- The four out-parameters of `http_parse_url`.  The outer `Option` is
`none` when the function returned without writing the pointer; the inner
`Option` is `none` when it wrote a NULL (a failed `strdup`). -/
structure ParseOuts where
  host : Option (Option (List Char))
  port : Option Nat
  path : Option (Option (List Char))
  query : Option (Option (List Char))
deriving DecidableEq, Repr

/-- No out-parameter written. -/
def noOuts : ParseOuts := ⟨none, none, none, none⟩

/-- `http_parse_url` (src/http.c:274-355): parse via the transport's URL
API; every detected failure (`curl_url()` allocation, parse error) returns
-1 before any out-parameter is written.  On the success path it writes all
four outputs — duplicating the strings with unchecked `strdup` calls,
defaulting the port to 80 when the URL has none (`CURLUE_NO_PORT`) and the
query to a duplicate of `""` when there is none — and returns 0. -/
def http_parse_url (url : List Char) (env : ParseEnv) : Int × ParseOuts :=
  if env.curl_url_alloc_ok = true then
    match curl_url_parse url with
    | none => ⟨-1, noOuts⟩
    | some u =>
      let portInt : Nat := match u.portStr with
        | none => 80
        | some p => digitsToNat p
      ⟨0,
       ⟨some (strdupM env.strdup_host_ok u.host),
        some portInt,
        some (strdupM env.strdup_path_ok u.path),
        some (match u.query with
          | some q => strdupM env.strdup_query_ok q
          | none => strdupM env.strdup_query_ok [])⟩⟩
  else
    ⟨-1, noOuts⟩

/-- `strdup` on a byte buffer with an allocation oracle: the copy stops at
the first NUL byte (C-string semantics); `none` models the NULL returned
when out of memory. -/
def strdupMBytes (ok : Bool) (s : List Nat) : Option (List Nat) :=
  if ok = true then some (s.takeWhile (fun b => b != 0)) else none

/-- Oracle for one second-variant `http_post` call: the `CURLcode` of its
own `curl_global_init`, whether `asprintf` allocates, whether
`curl_easy_init` returns a handle, the perform result and response chunks,
and whether the final `strdup(response.data)` allocates. -/
structure CurlEnv2 where
  global_init_result : Nat
  asprintf_ok : Bool
  easy_init_ok : Bool
  perform_result : Nat
  chunks : List (List Nat)
  strdup_ok : Bool
deriving Repr

/-- Result of a second-variant call: return value, the value written
through `char **_response` (outer `none` = pointer never written, inner
`none` = NULL from a failed `strdup`), and the handle configuration. -/
structure HttpCallResult2 where
  ret : Int
  response : Option (Option (List Nat))
  config : Option ReqConfig
deriving DecidableEq, Repr

/-- `http_post` of the second variant (src/http.c:464-532): runs
`curl_global_init` itself, builds the URL on the heap with `asprintf` (no
truncation), sets NO custom headers, performs, and stores
`strdup(response.data)` — a copy cut at the first NUL — through
`*_response`.  Its initial buffer is `malloc(1)` with the byte set to 0. -/
def http_post_v2 (host : List Char) (port : Nat) (path : List Char) (json : List Nat)
    (env : CurlEnv2) : HttpCallResult2 :=
  if env.global_init_result ≠ 0 then
    ⟨-1, none, none⟩
  else
    if env.asprintf_ok = false then
      ⟨-1, none, none⟩
    else
      let url := urlFormat host port (stripLeadingSlashes path)
      if env.easy_init_ok = true then
        let finalBuf := writeRun env.chunks ⟨[0], 0⟩
        ⟨(env.perform_result : Int),
         some (strdupMBytes env.strdup_ok finalBuf.data),
         some ⟨url, true, some json.length, []⟩⟩
      else
        ⟨-1, none, none⟩

/-- Dropping a maximal run of leading `'a'`s is a no-op when stripping
slashes. -/
theorem strip_replicate_a (n : Nat) :
    stripLeadingSlashes (List.replicate n 'a') = List.replicate n 'a' := by
  cases n with
  | zero => rfl
  | succ m => simp [stripLeadingSlashes, List.replicate_succ, List.dropWhile_cons]

/-- The spec-side strip keeps a list that starts with a non-slash. -/
theorem spec_strip_a_cons (l : List Char) : spec_strip ('a' :: l) = 'a' :: l := by
  simp [spec_strip]

/-- The spec-side strip is a no-op on an all-`'a'` path. -/
theorem spec_strip_replicate_a (n : Nat) :
    spec_strip (List.replicate n 'a') = List.replicate n 'a' := by
  cases n with
  | zero => rfl
  | succ m => rw [List.replicate_succ, spec_strip_a_cons]

/-- Length of the formatted URL in terms of its parts. -/
theorem urlFormat_length (host : List Char) (port : Nat) (path : List Char) :
    (urlFormat host port path).length =
      host.length + (Nat.toDigits 10 port).length + path.length + 2 := by
  simp [urlFormat]
  omega

/-- The URL formatted for host `h`, port 80 and `longPath` needs 4205
characters. -/
theorem long_format_length : (urlFormat ['h'] 80 (stripLeadingSlashes longPath)).length = 4205 := by
  have h1 : stripLeadingSlashes longPath = longPath := strip_replicate_a 4200
  rw [h1, urlFormat_length]
  simp only [longPath, List.length_replicate, List.length_cons, List.length_nil]
  decide

/-- The spec-mandated URL for host `h`, port 80 and `longPath` has 4205
characters. -/
theorem spec_long_length : (spec_built_url ['h'] 80 longPath).length = 4205 := by
  have h1 : spec_strip longPath = longPath := spec_strip_replicate_a 4200
  have h2 : longPath.length = 4200 := by
    simp only [longPath, List.length_replicate]
  unfold spec_built_url
  rw [h1]
  simp only [List.length_append]
  rw [h2]
  decide

/-- The URL the code stores for host `h`, port 80 and `longPath` is cut to
`PATH_MAX - 1 = 4095` characters by `snprintf`. -/
theorem built_long_length : (builtUrl ['h'] 80 longPath).length = 4095 := by
  show ((urlFormat ['h'] 80 (stripLeadingSlashes longPath)).take (PATH_MAX - 1)).length = 4095
  rw [List.length_take, long_format_length]
  decide

/-- The spec-side strip leaves a list whose head is not a slash alone. -/
theorem spec_strip_cons_ne (c : Char) (rest : List Char) (hc : ¬ c = '/') :
    spec_strip (c :: rest) = c :: rest := by
  rw [spec_strip.eq_def]
  split
  · rename_i heq
    injection heq with h1 h2
    exact absurd h1 hc
  · rfl

/-- The spec's wording of leading-slash stripping agrees with the code's
`dropWhile` on every path. -/
theorem spec_strip_eq_strip (l : List Char) : spec_strip l = stripLeadingSlashes l := by
  induction l with
  | nil => rfl
  | cons c rest ih =>
    by_cases hc : c = '/'
    · subst hc
      show spec_strip rest = _
      rw [ih]
      simp [stripLeadingSlashes, List.dropWhile_cons]
    · rw [spec_strip_cons_ne c rest hc]
      simp [stripLeadingSlashes, List.dropWhile_cons, hc]

/-- After stripping, the path never starts with a slash. -/
theorem strip_head_ne_slash (path : List Char) (c : Char) (rest : List Char)
    (h : stripLeadingSlashes path = c :: rest) : ¬ c = '/' := by
  induction path with
  | nil => exact absurd h (by simp [stripLeadingSlashes])
  | cons a l ih =>
    by_cases ha : a = '/'
    · subst ha
      rw [show stripLeadingSlashes ('/' :: l) = stripLeadingSlashes l from by
        simp [stripLeadingSlashes, List.dropWhile_cons]] at h
      exact ih h
    · rw [show stripLeadingSlashes (a :: l) = a :: l from by
        simp [stripLeadingSlashes, List.dropWhile_cons, ha]] at h
      injection h with h1 h2
      subst h1
      exact ha

/-- `http_post` when `curl_easy_init` succeeds: the snprintf `== -1` check
cannot fire (the return value is the nonnegative untruncated length), so
the call configures the handle and performs. -/
theorem http_post_easy (host : List Char) (port : Nat) (path : List Char) (json : List Nat)
    (env : CurlEnv) (h : env.easy_init_ok = true) :
    http_post host port path json env =
      ⟨(env.perform_result : Int),
       some (writeRun env.chunks ⟨[env.junk], 0⟩).data,
       some ⟨builtUrl host port path, true, some json.length, postHeaders⟩,
       some ⟨json, json.length⟩⟩ := by
  unfold http_post builtUrl
  rw [if_neg (by omega), if_pos h]

/-- `http_get` when `curl_easy_init` succeeds. -/
theorem http_get_easy (host : List Char) (port : Nat) (path : List Char)
    (env : CurlEnv) (h : env.easy_init_ok = true) :
    http_get host port path env =
      ⟨(env.perform_result : Int),
       some (writeRun env.chunks ⟨[env.junk], 0⟩).data,
       some ⟨builtUrl host port path, false, none, []⟩,
       none⟩ := by
  unfold http_get builtUrl
  rw [if_neg (by omega), if_pos h]

/-- `http_post` when `curl_easy_init` fails: return -1, nothing written,
no handle configured. -/
theorem http_post_noinit (host : List Char) (port : Nat) (path : List Char) (json : List Nat)
    (env : CurlEnv) (h : env.easy_init_ok = false) :
    http_post host port path json env = ⟨-1, none, none, none⟩ := by
  unfold http_post
  rw [if_neg (by omega), if_neg (by simp [h])]

/-- `http_get` when `curl_easy_init` fails. -/
theorem http_get_noinit (host : List Char) (port : Nat) (path : List Char)
    (env : CurlEnv) (h : env.easy_init_ok = false) :
    http_get host port path env = ⟨-1, none, none, none⟩ := by
  unfold http_get
  rw [if_neg (by omega), if_neg (by simp [h])]

/-- Once the request body is exhausted, `read_callback` keeps returning 0
and no longer moves. -/
theorem read_callback_exhausted (b : Nat) : read_callback b ⟨[], 0⟩ = ⟨0, [], ⟨[], 0⟩⟩ := by
  simp [read_callback]

/-- One `read_callback` invocation with bytes remaining copies
`min remaining offered` bytes and advances the cursor by that amount. -/
theorem read_callback_step (b : Nat) (st : ReadCallbackData) (hst : st.size ≠ 0) :
    read_callback b st =
      ⟨min st.size b, st.data.take (min st.size b),
        ⟨st.data.drop (min st.size b), st.size - min st.size b⟩⟩ := by
  have hcopy : (if st.size > b then b else st.size) = min st.size b := by
    rcases le_or_lt st.size b with hx | hx
    · rw [if_neg (by omega), min_eq_left hx]
    · rw [if_pos hx, min_eq_right (by omega)]
  simp [read_callback, hst, hcopy]

/-- Driving `read_callback` over any schedule of buffer sizes whose total
covers the declared length emits exactly the declared bytes, in order, and
ends exhausted. -/
theorem runReads_drains (offers : List Nat) (l : List Nat) (h : l.length ≤ offers.sum) :
    runReads offers ⟨l, l.length⟩ = ⟨l, ⟨[], 0⟩⟩ := by
  induction offers generalizing l with
  | nil =>
    simp at h
    subst h
    rfl
  | cons b bs ih =>
    by_cases hl : l = []
    · subst hl
      have h2 := ih [] (by simp)
      simpa [runReads, read_callback] using h2
    · have hlen : l.length ≠ 0 := by
        simpa [List.length_eq_zero] using hl
      have hrc := read_callback_step b ⟨l, l.length⟩ hlen
      have hdl : (l.drop (min l.length b)).length = l.length - min l.length b := by
        simp [List.length_drop]
      have hrec : runReads bs ⟨l.drop (min l.length b), l.length - min l.length b⟩ =
          ⟨l.drop (min l.length b), ⟨[], 0⟩⟩ := by
        rw [show l.length - min l.length b = (l.drop (min l.length b)).length from hdl.symm]
        apply ih
        rw [hdl]
        simp at h
        omega
      show runReads (b :: bs) ⟨l, l.length⟩ = ⟨l, ⟨[], 0⟩⟩
      simp only [runReads, hrc, hrec]
      simp [List.take_append_drop]

/-- Claim C1, counterexample: the claim's universal equality fails.  For
host `h`, port 80 and a 4200-character path, the URL the code builds (cut
to `PATH_MAX - 1` characters by `snprintf`) differs from the concatenation
`host + ":" + decimal(port) + "/" + strippedPath` the claim promises. -/
theorem built_url_differs_from_spec_on_long_path :
    builtUrl ['h'] 80 longPath ≠ spec_built_url ['h'] 80 longPath := by
  intro h
  have hl := congrArg List.length h
  rw [built_long_length, spec_long_length] at hl
  exact absurd hl (by decide)

/-- Claim C1, amended: whenever the formatted URL fits the `PATH_MAX`
buffer, the URL built by `http_post` and `http_get` equals the
concatenation `host + ":" + decimal(port) + "/" + path'` with the maximal
run of leading slashes removed from `path` exactly once, and the path
component never begins with a slash taken from the input path. -/
theorem built_url_matches_spec_when_it_fits (host : List Char) (port : Nat) (path : List Char)
    (h : (urlFormat host port (stripLeadingSlashes path)).length < PATH_MAX) :
    builtUrl host port path = spec_built_url host port path ∧
    (∀ c rest, stripLeadingSlashes path = c :: rest → ¬ c = '/') := by
  constructor
  · have hspec : spec_built_url host port path = urlFormat host port (stripLeadingSlashes path) := by
      unfold spec_built_url urlFormat
      rw [spec_strip_eq_strip]
      simp [List.append_assoc]
    rw [hspec]
    show (urlFormat host port (stripLeadingSlashes path)).take (PATH_MAX - 1) = _
    exact List.take_of_length_le (by omega)
  · exact fun c rest hcr => strip_head_ne_slash path c rest hcr

/-- Claim C1, witness: the amended theorem applied to host `h`, port 80
and path `///x`, whose URL fits the buffer. -/
theorem built_url_matches_spec_when_it_fits_witness :
    (urlFormat ['h'] 80 (stripLeadingSlashes "///x".data)).length < PATH_MAX ∧
    builtUrl ['h'] 80 "///x".data = spec_built_url ['h'] 80 "///x".data :=
  ⟨by decide, (built_url_matches_spec_when_it_fits ['h'] 80 "///x".data (by decide)).1⟩

/-- Claim C2 (confirmed, against the spec-modelled transport URL API):
`http_parse_url` on
`http://wikipedia.com/elo321/123elo?build_id=johnny&name=john` returns 0
and writes host `wikipedia.com`, port 80, path `/elo321/123elo` and query
`build_id=johnny&name=john`; on the schemeless `wikipedia.com` it also
returns 0, with the port defaulting to 80 and the query defaulting to the
written empty string (never left absent). -/
theorem http_parse_url_round_trip_examples :
    http_parse_url "http://wikipedia.com/elo321/123elo?build_id=johnny&name=john".data
        ⟨true, true, true, true⟩ =
      ⟨0, ⟨some (some "wikipedia.com".data), some 80, some (some "/elo321/123elo".data),
        some (some "build_id=johnny&name=john".data)⟩⟩ ∧
    (http_parse_url "wikipedia.com".data ⟨true, true, true, true⟩).1 = 0 ∧
    (http_parse_url "wikipedia.com".data ⟨true, true, true, true⟩).2.host =
      some (some "wikipedia.com".data) ∧
    (http_parse_url "wikipedia.com".data ⟨true, true, true, true⟩).2.port = some 80 ∧
    (http_parse_url "wikipedia.com".data ⟨true, true, true, true⟩).2.query = some (some []) := by
  refine ⟨by decide, by decide, by decide, by decide, by decide⟩

/-- Claim C3 (code bug): for host `h`, port 80 and a 4200-character path
the formatted URL needs 4205 bytes — more than `PATH_MAX = 4096` — yet both
`http_post` and `http_get` proceed with the request on the silently
truncated 4095-character URL and report the transport's success code
instead of an error: `snprintf` returns the untruncated length on
truncation, never the -1 the code tests for. -/
theorem snprintf_truncation_goes_unreported :
    (http_post ['h'] 80 longPath [] ⟨true, 0, [], 0⟩).ret = 0 ∧
    (http_post ['h'] 80 longPath [] ⟨true, 0, [], 0⟩).config.map (fun c => c.url.length) =
      some 4095 ∧
    (http_get ['h'] 80 longPath ⟨true, 0, [], 0⟩).ret = 0 ∧
    (http_get ['h'] 80 longPath ⟨true, 0, [], 0⟩).config.map (fun c => c.url.length) =
      some 4095 ∧
    (urlFormat ['h'] 80 (stripLeadingSlashes longPath)).length = 4205 ∧
    PATH_MAX = 4096 := by
  rw [http_post_easy ['h'] 80 longPath [] ⟨true, 0, [], 0⟩ rfl,
    http_get_easy ['h'] 80 longPath ⟨true, 0, [], 0⟩ rfl]
  refine ⟨rfl, ?_, rfl, ?_, long_format_length, rfl⟩
  · show some (builtUrl ['h'] 80 longPath).length = some 4095
    rw [built_long_length]
  · show some (builtUrl ['h'] 80 longPath).length = some 4095
    rw [built_long_length]

/-- Claim C4 (confirmed): when `realloc` succeeds, `write_callback` appends
the whole chunk — afterwards the buffer holds the old `size` bytes followed
by the chunk, the size grows by the chunk length, the byte at the new size
index is 0 — and returns the chunk length; when `realloc` fails it returns
0 and leaves the buffer and size untouched. -/
theorem write_callback_appends_whole_chunk (contents : List Nat) (st : WriteCallbackData)
    (h : st.size ≤ st.data.length) :
    (write_callback contents true st).1 = contents.length ∧
    (write_callback contents true st).2.data = st.data.take st.size ++ contents ++ [0] ∧
    (write_callback contents true st).2.size = st.size + contents.length ∧
    (write_callback contents true st).2.data.take ((write_callback contents true st).2.size) =
      st.data.take st.size ++ contents ∧
    ((write_callback contents true st).2.data)[(write_callback contents true st).2.size]? =
      some 0 ∧
    (write_callback contents false st).1 = 0 ∧
    (write_callback contents false st).2 = st := by
  have hA : (st.data.take st.size).length = st.size := by
    rw [List.length_take]
    omega
  have hlen : st.size + contents.length = (st.data.take st.size ++ contents).length := by
    simp [hA]
  refine ⟨rfl, rfl, rfl, ?_, ?_, rfl, rfl⟩
  · show (st.data.take st.size ++ contents ++ [0]).take (st.size + contents.length) =
      st.data.take st.size ++ contents
    rw [hlen, List.take_left]
  · show (st.data.take st.size ++ contents ++ [0])[st.size + contents.length]? = some 0
    rw [hlen, List.getElem?_append_right (by omega)]
    simp

/-- Claim C4, witness: appending the chunk `[7, 8]` to an empty buffer
backed by one junk byte, and an allocation failure on the same state. -/
theorem write_callback_appends_whole_chunk_witness :
    (0 : Nat) ≤ ([9] : List Nat).length ∧
    (write_callback [7, 8] true ⟨[9], 0⟩).2.data = [7, 8, 0] ∧
    (write_callback [7, 8] false ⟨[9], 0⟩).2 = ⟨[9], 0⟩ := by
  have h := write_callback_appends_whole_chunk [7, 8] ⟨[9], 0⟩ (by decide)
  exact ⟨by decide, h.2.1, (h.2.2.2.2.2.2 : _)⟩

/-- Claim C5 (confirmed): `http_post` registers `read_callback_data` with
exactly `strlen(json)` and declares that length as `CURLOPT_POSTFIELDSIZE`
before performing; each invocation with bytes left copies
`min(remaining, offered)` bytes and advances by that amount; across any
schedule of offered buffer sizes covering the declared length the callback
emits exactly the declared bytes in order and then returns 0 without
re-reading; an empty body declares size 0 and causes no error. -/
theorem http_post_streams_declared_body (host : List Char) (port : Nat) (path : List Char)
    (json : List Nat) (env : CurlEnv) (offers : List Nat)
    (hinit : env.easy_init_ok = true) (hsum : json.length ≤ offers.sum) :
    (http_post host port path json env).readData = some ⟨json, json.length⟩ ∧
    (http_post host port path json env).config.map ReqConfig.declaredSize =
      some (some json.length) ∧
    (∀ b st, st.size ≠ 0 →
      read_callback b st =
        ⟨min st.size b, st.data.take (min st.size b),
          ⟨st.data.drop (min st.size b), st.size - min st.size b⟩⟩) ∧
    runReads offers ⟨json, json.length⟩ = ⟨json, ⟨[], 0⟩⟩ ∧
    (∀ b, read_callback b ⟨[], 0⟩ = ⟨0, [], ⟨[], 0⟩⟩) ∧
    (http_post host port path [] env).config.map ReqConfig.declaredSize = some (some 0) ∧
    (http_post host port path [] env).ret = (env.perform_result : Int) := by
  rw [http_post_easy host port path json env hinit,
    http_post_easy host port path [] env hinit]
  exact ⟨rfl, rfl, read_callback_step, runReads_drains offers json hsum,
    read_callback_exhausted, rfl, rfl⟩

/-- Claim C5, witness: body `[1, 2, 3]` drained by buffer sizes 2 then 5,
and the declared size recorded for that body. -/
theorem http_post_streams_declared_body_witness :
    (http_post ['h'] 80 ['p'] [1, 2, 3] ⟨true, 0, [], 0⟩).readData = some ⟨[1, 2, 3], 3⟩ ∧
    runReads [2, 5] ⟨[1, 2, 3], 3⟩ = ⟨[1, 2, 3], ⟨[], 0⟩⟩ := by
  have h := http_post_streams_declared_body ['h'] 80 ['p'] [1, 2, 3] ⟨true, 0, [], 0⟩
    [2, 5] rfl (by decide)
  exact ⟨h.1, h.2.2.2.1⟩

/-- Claim C6, counterexample: when `curl_easy_init` fails, `http_post` and
`http_get` return -1 but never write the `response` out-parameter — the
caller is left with its own (possibly uninitialised) pointer and the
internal 1-byte allocation leaks — contradicting the claim that every
failure path leaves the out-parameter a valid freeable allocation. -/
theorem http_init_failure_leaves_response_unwritten :
    (http_post ['h'] 80 ['p'] [] ⟨false, 0, [], 0⟩).ret = -1 ∧
    (http_post ['h'] 80 ['p'] [] ⟨false, 0, [], 0⟩).response = none ∧
    (http_get ['h'] 80 ['p'] ⟨false, 0, [], 0⟩).ret = -1 ∧
    (http_get ['h'] 80 ['p'] ⟨false, 0, [], 0⟩).response = none := by
  rw [http_post_noinit ['h'] 80 ['p'] [] ⟨false, 0, [], 0⟩ rfl,
    http_get_noinit ['h'] 80 ['p'] ⟨false, 0, [], 0⟩ rfl]
  exact ⟨rfl, rfl, rfl, rfl⟩

/-- Claim C6, amended: on transport-transaction failure (a nonzero perform
result) `http_post` and `http_get` return that nonzero code — distinct
from success — and the response out-parameter holds the accumulated
buffer, a valid freeable allocation; but on `curl_easy_init` failure they
return -1 without writing the out-parameter at all. -/
theorem http_transaction_failure_keeps_freeable_response (host : List Char) (port : Nat)
    (path : List Char) (json : List Nat) (env : CurlEnv)
    (hinit : env.easy_init_ok = true) (hfail : env.perform_result ≠ 0) :
    (http_post host port path json env).ret = (env.perform_result : Int) ∧
    (http_post host port path json env).ret ≠ 0 ∧
    (∃ buf, (http_post host port path json env).response = some buf) ∧
    (http_get host port path env).ret = (env.perform_result : Int) ∧
    (http_get host port path env).ret ≠ 0 ∧
    (∃ buf, (http_get host port path env).response = some buf) ∧
    (∀ env2 : CurlEnv, env2.easy_init_ok = false →
      (http_post host port path json env2).ret = -1 ∧
      (http_post host port path json env2).response = none ∧
      (http_get host port path env2).ret = -1 ∧
      (http_get host port path env2).response = none) := by
  rw [http_post_easy host port path json env hinit, http_get_easy host port path env hinit]
  refine ⟨rfl, by simp; omega, ⟨_, rfl⟩, rfl, by simp; omega, ⟨_, rfl⟩, ?_⟩
  intro env2 h2
  rw [http_post_noinit host port path json env2 h2, http_get_noinit host port path env2 h2]
  exact ⟨rfl, rfl, rfl, rfl⟩

/-- Claim C6, witness: a failing transaction (perform code 7) with a
successfully created handle. -/
theorem http_transaction_failure_keeps_freeable_response_witness :
    (http_post ['h'] 80 ['p'] [] ⟨true, 7, [], 0⟩).ret = 7 ∧
    (∃ buf, (http_post ['h'] 80 ['p'] [] ⟨true, 7, [], 0⟩).response = some buf) := by
  have h := http_transaction_failure_keeps_freeable_response ['h'] 80 ['p'] []
    ⟨true, 7, [], 0⟩ rfl (by decide)
  exact ⟨h.1, h.2.2.1⟩

/-- Claim C7, counterexample: out-of-memory in the output `strdup` at
src/http.c:343 is an undetected failure — on input `wikipedia.com` with
the host duplication failing, `http_parse_url` returns 0 (not -1) and
writes a NULL host alongside a populated port, exactly the half-populated
output the claim rules out. -/
theorem http_parse_url_oom_half_populated :
    (http_parse_url "wikipedia.com".data ⟨true, false, true, true⟩).1 = 0 ∧
    (http_parse_url "wikipedia.com".data ⟨true, false, true, true⟩).2.host = some none ∧
    (http_parse_url "wikipedia.com".data ⟨true, false, true, true⟩).2.port = some 80 := by
  refine ⟨by decide, by decide, by decide⟩

/-- Claim C7, amended: on every input where `http_parse_url` returns the
failure discriminator -1 (malformed URL, unsupported scheme, or allocation
failure in the URL API), none of the four output parameters is written;
allocation failure in the final output duplications, however, is not
detected: the call then returns 0 with null output strings. -/
theorem http_parse_url_failure_writes_no_outputs (url : List Char) (env : ParseEnv)
    (h : (http_parse_url url env).1 = -1) :
    (http_parse_url url env).2 = noOuts := by
  by_cases ha : env.curl_url_alloc_ok = true
  · cases hp : curl_url_parse url with
    | none => simp [http_parse_url, ha, hp]
    | some u =>
      exfalso
      simp [http_parse_url, ha, hp] at h
  · simp [http_parse_url, ha]

/-- Claim C7, witness: the unsupported scheme `ftp://x` makes the parse
fail with -1 and no outputs written. -/
theorem http_parse_url_failure_writes_no_outputs_witness :
    (http_parse_url "ftp://x".data ⟨true, true, true, true⟩).1 = -1 ∧
    (http_parse_url "ftp://x".data ⟨true, true, true, true⟩).2 = noOuts :=
  ⟨by decide, http_parse_url_failure_writes_no_outputs "ftp://x".data ⟨true, true, true, true⟩
    (by decide)⟩

/-- Claim C8, counterexample: the second variant's `http_post`
(src/http.c:464-532) issues a POST that carries no custom headers at all,
so not every POST issued by `http_post` carries the three fixed headers. -/
theorem http_post_v2_carries_no_headers :
    (http_post_v2 ['h'] 80 ['p'] [] ⟨0, true, true, 0, [], true⟩).ret = 0 ∧
    (http_post_v2 ['h'] 80 ['p'] [] ⟨0, true, true, 0, [], true⟩).config.map ReqConfig.headers =
      some [] ∧
    postHeaders ≠ [] := by
  refine ⟨by decide, by decide, by decide⟩

/-- Claim C8, amended: every POST issued by the first variant's
`http_post` carries exactly the three fixed headers `Accept:
application/json`, `Content-Type: application/json` and the literal
non-standard `charsets: utf-8`, regardless of the body; its GET requests
carry no custom headers; the second variant's `http_post` carries no
custom headers either. -/
theorem http_headers_by_variant (host : List Char) (port : Nat) (path : List Char)
    (json : List Nat) (env : CurlEnv) (env2 : CurlEnv2)
    (hinit : env.easy_init_ok = true) (hgi : env2.global_init_result = 0)
    (hasp : env2.asprintf_ok = true) (hei : env2.easy_init_ok = true) :
    (http_post host port path json env).config.map ReqConfig.headers = some postHeaders ∧
    (http_get host port path env).config.map ReqConfig.headers = some [] ∧
    (http_post_v2 host port path json env2).config.map ReqConfig.headers = some [] := by
  rw [http_post_easy host port path json env hinit, http_get_easy host port path env hinit]
  refine ⟨rfl, rfl, ?_⟩
  unfold http_post_v2
  rw [if_neg (by simp [hgi]), if_neg (by simp [hasp]), if_pos hei]
  rfl

/-- Claim C8, witness: both variants invoked with all transport steps
succeeding. -/
theorem http_headers_by_variant_witness :
    (http_post ['h'] 80 ['p'] [] ⟨true, 0, [], 0⟩).config.map ReqConfig.headers =
      some postHeaders ∧
    (http_post_v2 ['h'] 80 ['p'] [] ⟨0, true, true, 0, [], true⟩).config.map ReqConfig.headers =
      some [] := by
  have h := http_headers_by_variant ['h'] 80 ['p'] [] ⟨true, 0, [], 0⟩
    ⟨0, true, true, 0, [], true⟩ rfl rfl rfl rfl
  exact ⟨h.1, h.2.2⟩

/-- `http_init` always leaves the init guard set. -/
theorem http_init_sets_flag (s : GlobalState) : (http_init s).init_spawned = true := by
  cases hs : s.init_spawned <;> simp [http_init, hs]

/-- `http_cleanup` always leaves the cleanup guard set. -/
theorem http_cleanup_sets_flag (s : GlobalState) : (http_cleanup s).cleanup_spawned = true := by
  cases hs : s.cleanup_spawned <;> simp [http_cleanup, hs]

/-- `http_cleanup` neither touches the init guard nor calls
`curl_global_init`. -/
theorem http_cleanup_keeps_init (s : GlobalState) :
    (http_cleanup s).init_spawned = s.init_spawned ∧
    (http_cleanup s).init_calls = s.init_calls := by
  cases hs : s.cleanup_spawned <;> simp [http_cleanup, hs]

/-- `http_init` neither touches the cleanup guard nor calls
`curl_global_cleanup`. -/
theorem http_init_keeps_cleanup (s : GlobalState) :
    (http_init s).cleanup_spawned = s.cleanup_spawned ∧
    (http_init s).cleanup_calls = s.cleanup_calls := by
  cases hs : s.init_spawned <;> simp [http_init, hs]

/-- Once the init guard is set, no later call sequence changes the
`curl_global_init` count, and the guard stays set. -/
theorem runOps_init_frozen (ops : List HttpOp) (s : GlobalState)
    (h : s.init_spawned = true) :
    (runOps ops s).init_calls = s.init_calls ∧ (runOps ops s).init_spawned = true := by
  induction ops generalizing s with
  | nil => exact ⟨rfl, h⟩
  | cons op rest ih =>
    cases op with
    | init =>
      simp only [runOps]
      have hI : http_init s = s := by simp [http_init, h]
      rw [hI]
      exact ih s h
    | cleanup =>
      simp only [runOps]
      have hk := http_cleanup_keeps_init s
      have h3 := ih (http_cleanup s) (by rw [hk.1, h])
      rw [h3.1, hk.2]
      exact ⟨rfl, h3.2⟩

/-- Once the cleanup guard is set, no later call sequence changes the
`curl_global_cleanup` count, and the guard stays set. -/
theorem runOps_cleanup_frozen (ops : List HttpOp) (s : GlobalState)
    (h : s.cleanup_spawned = true) :
    (runOps ops s).cleanup_calls = s.cleanup_calls ∧ (runOps ops s).cleanup_spawned = true := by
  induction ops generalizing s with
  | nil => exact ⟨rfl, h⟩
  | cons op rest ih =>
    cases op with
    | cleanup =>
      simp only [runOps]
      have hC : http_cleanup s = s := by simp [http_cleanup, h]
      rw [hC]
      exact ih s h
    | init =>
      simp only [runOps]
      have hk := http_init_keeps_cleanup s
      have h3 := ih (http_init s) (by rw [hk.1, h])
      rw [h3.1, hk.2]
      exact ⟨rfl, h3.2⟩

/-- From a state whose init guard is clear, any call sequence performs the
global initialization at most once more. -/
theorem runOps_init_calls_le (ops : List HttpOp) (s : GlobalState)
    (h : s.init_spawned = false) :
    (runOps ops s).init_calls ≤ s.init_calls + 1 := by
  induction ops generalizing s with
  | nil =>
    show s.init_calls ≤ s.init_calls + 1
    omega
  | cons op rest ih =>
    cases op with
    | init =>
      simp only [runOps]
      have hI : http_init s =
          ⟨true, s.cleanup_spawned, s.init_calls + 1, s.cleanup_calls, true⟩ := by
        simp [http_init, h]
      rw [hI]
      have h2 := (runOps_init_frozen rest
        ⟨true, s.cleanup_spawned, s.init_calls + 1, s.cleanup_calls, true⟩ rfl).1
      rw [h2]
    | cleanup =>
      simp only [runOps]
      have hk := http_cleanup_keeps_init s
      have h2 := ih (http_cleanup s) (by rw [hk.1, h])
      omega

/-- From a state whose cleanup guard is clear, any call sequence performs
the global teardown at most once more. -/
theorem runOps_cleanup_calls_le (ops : List HttpOp) (s : GlobalState)
    (h : s.cleanup_spawned = false) :
    (runOps ops s).cleanup_calls ≤ s.cleanup_calls + 1 := by
  induction ops generalizing s with
  | nil =>
    show s.cleanup_calls ≤ s.cleanup_calls + 1
    omega
  | cons op rest ih =>
    cases op with
    | cleanup =>
      simp only [runOps]
      have hC : http_cleanup s =
          ⟨s.init_spawned, true, s.init_calls, s.cleanup_calls + 1, false⟩ := by
        simp [http_cleanup, h]
      rw [hC]
      have h2 := (runOps_cleanup_frozen rest
        ⟨s.init_spawned, true, s.init_calls, s.cleanup_calls + 1, false⟩ rfl).1
      rw [h2]
    | init =>
      simp only [runOps]
      have hk := http_init_keeps_cleanup s
      have h2 := ih (http_init s) (by rw [hk.1, h])
      omega

/-- `http_init` does nothing once the init guard is set. -/
theorem http_init_noop (s : GlobalState) (h : s.init_spawned = true) : http_init s = s := by
  simp [http_init, h]

/-- `http_cleanup` does nothing once the cleanup guard is set. -/
theorem http_cleanup_noop (s : GlobalState) (h : s.cleanup_spawned = true) :
    http_cleanup s = s := by
  simp [http_cleanup, h]

/-- Claim C9 (confirmed): over any sequence of `http_init`/`http_cleanup`
calls from process start, `curl_global_init` runs at most once and
`curl_global_cleanup` runs at most once (so a second `http_init` never
re-initializes and a cleanup without or after another cleanup never tears
down again), and both entry points are idempotent on the process state. -/
theorem http_init_cleanup_idempotent :
    (∀ ops : List HttpOp,
      (runOps ops initialGlobalState).init_calls ≤ 1 ∧
      (runOps ops initialGlobalState).cleanup_calls ≤ 1) ∧
    (∀ s, http_init (http_init s) = http_init s) ∧
    (∀ s, http_cleanup (http_cleanup s) = http_cleanup s) := by
  refine ⟨fun ops => ⟨?_, ?_⟩, fun s => ?_, fun s => ?_⟩
  · have h := runOps_init_calls_le ops initialGlobalState rfl
    simpa [initialGlobalState] using h
  · have h := runOps_cleanup_calls_le ops initialGlobalState rfl
    simpa [initialGlobalState] using h
  · exact http_init_noop (http_init s) (http_init_sets_flag s)
  · exact http_cleanup_noop (http_cleanup s) (http_cleanup_sets_flag s)

/-- Claim C10, counterexample: the init guard is independent of the
cleanup guard, so after a cleanup that was not preceded by any init, a
later `http_init` is NOT a no-op — it runs `curl_global_init` and leaves
the transport initialised, not torn down. -/
theorem http_init_after_cleanup_still_runs :
    (runOps [HttpOp.cleanup, HttpOp.init] initialGlobalState).init_calls = 1 ∧
    (runOps [HttpOp.cleanup, HttpOp.init] initialGlobalState).curl_active = true ∧
    http_init (http_cleanup initialGlobalState) ≠ http_cleanup initialGlobalState := by
  refine ⟨by decide, by decide, by decide⟩

/-- Claim C10, amended: the init and cleanup guards are two independent
one-shot flags that are never reset.  In any state where the init guard is
set — regardless of the cleanup guard — every later `http_init` is a no-op
and the guard stays set under any further calls; symmetrically, in any
state where the cleanup guard is set — regardless of the init guard —
every later `http_cleanup` is a no-op and that guard stays set.  Hence
over every call sequence from process start `curl_global_init` and
`curl_global_cleanup` each run at most once (at most one full init/cleanup
cycle is ever possible), and the sequence init, cleanup, init in
particular leaves the transport torn down; however, an `http_init` after a
cleanup that no init preceded does still initialize the transport. -/
theorem one_shot_guard_flags (ops : List HttpOp) (s t : GlobalState)
    (hI : s.init_spawned = true) (hC : t.cleanup_spawned = true) :
    http_init s = s ∧
    (runOps ops s).init_spawned = true ∧
    http_cleanup t = t ∧
    (runOps ops t).cleanup_spawned = true ∧
    (runOps ops initialGlobalState).init_calls ≤ 1 ∧
    (runOps ops initialGlobalState).cleanup_calls ≤ 1 ∧
    runOps [HttpOp.init, HttpOp.cleanup, HttpOp.init] initialGlobalState =
      ⟨true, true, 1, 1, false⟩ := by
  refine ⟨http_init_noop s hI, (runOps_init_frozen ops s hI).2,
    http_cleanup_noop t hC, (runOps_cleanup_frozen ops t hC).2, ?_, ?_, by decide⟩
  · have h := runOps_init_calls_le ops initialGlobalState rfl
    simpa [initialGlobalState] using h
  · have h := runOps_cleanup_calls_le ops initialGlobalState rfl
    simpa [initialGlobalState] using h

/-- Claim C10, witness: the init no-op in the state reached by init alone
(cleanup guard still clear), the cleanup no-op in the state reached by
cleanup alone (init guard still clear), and the at-most-once bound on a
concrete attempted double cycle. -/
theorem one_shot_guard_flags_witness :
    http_init ⟨true, false, 1, 0, true⟩ = ⟨true, false, 1, 0, true⟩ ∧
    http_cleanup ⟨false, true, 0, 1, false⟩ = ⟨false, true, 0, 1, false⟩ ∧
    (runOps [HttpOp.init, HttpOp.cleanup, HttpOp.init, HttpOp.cleanup]
      initialGlobalState).init_calls ≤ 1 ∧
    (runOps [HttpOp.init, HttpOp.cleanup, HttpOp.init, HttpOp.cleanup]
      initialGlobalState).cleanup_calls ≤ 1 := by
  have h := one_shot_guard_flags [HttpOp.init, HttpOp.cleanup, HttpOp.init, HttpOp.cleanup]
    ⟨true, false, 1, 0, true⟩ ⟨false, true, 0, 1, false⟩ rfl rfl
  exact ⟨h.1, h.2.2.1, h.2.2.2.2.1, h.2.2.2.2.2.1⟩
